import Mathlib

/-!
Shallow embedding of the screen-state extraction core of the AI-Desktop-Pet
repository (backend/detector.py, backend/ui_inspector.py, backend/analyzer.py,
backend/capture.py), together with proofs of the checked properties.

External collaborators (the PIL image library, the OCR engines, the Win32
window registry, the pywinauto accessibility engine, the clock) are modelled
as explicit function-valued parameters: each is an arbitrary total function
describing the responses the collaborator gives during one analysis call.
Images are an arbitrary type parameter.  Machine floats (OCR confidences,
timestamps) are modelled as rationals: the code only compares and copies
them, never does float arithmetic whose rounding could matter.

Python string helpers lower/strip/startswith/in are re-implemented over
character lists so that every definition is kernel-executable.
-/

/-- Python str.lower restricted to the characters the code compares. -/
def lowerStr (s : String) : String := String.mk (List.map Char.toLower (String.toList s))

/-- Whitespace test used by Python str.strip. -/
def isSpaceChar (c : Char) : Bool :=
  c = ' ' || c = '\t' || c = '\n' || c = '\r' || c = '\x0b' || c = '\x0c'

/-- Python str.strip: remove leading and trailing whitespace. -/
def strip (s : String) : String :=
  String.mk (List.reverse (List.dropWhile isSpaceChar
    (List.reverse (List.dropWhile isSpaceChar (String.toList s)))))

/-- Boolean list-prefix test (kernel-executable). -/
def isPrefixL : List Char → List Char → Bool
  | [], _ => true
  | _ :: _, [] => false
  | a :: as, b :: bs => a = b && isPrefixL as bs

/-- Python str.startswith. -/
def startsWithStr (s p : String) : Bool := isPrefixL (String.toList p) (String.toList s)

/-- Boolean substring test on character lists (kernel-executable). -/
def hasSubstring : List Char → List Char → Bool
  | hay, needle =>
    isPrefixL needle hay ||
      match hay with
      | [] => false
      | _ :: t => hasSubstring t needle

/-- Python `needle in hay` for strings. -/
def strContains (hay needle : String) : Bool :=
  hasSubstring (String.toList hay) (String.toList needle)

/-- A bounding box [x1, y1, x2, y2] as used throughout detector.py. -/
structure BBox where
  x1 : Int
  y1 : Int
  x2 : Int
  y2 : Int
deriving DecidableEq, Repr

/-- One OCR detection dict: {text, bbox, confidence, engine}. -/
structure Detection where
  text : String
  bbox : BBox
  confidence : ℚ
  engine : String
deriving DecidableEq, Repr

/-- One raw easyocr readtext result: a quadrilateral of points, the text and
the confidence (easyocr always returns four corner points per hit). -/
structure EasyRaw where
  p1 : Int × Int
  p2 : Int × Int
  p3 : Int × Int
  p4 : Int × Int
  text : String
  confidence : ℚ
deriving DecidableEq, Repr

/-- One row of the pytesseract image_to_data parallel arrays. -/
structure TessRow where
  text : String
  conf : Int
  left : Int
  top : Int
  width : Int
  height : Int
deriving DecidableEq, Repr

/-- The PIL image operations the code uses, for an abstract image type. -/
structure PixelOps (Image : Type) where
  crop : Image → Int × Int × Int × Int → Image
  size : Image → Int × Int

/-- ContentDetector state: the configured engine name, the easyocr reader
(none when unavailable or its initialization failed, matching the code
falling back to self.easyocr_reader = None), tesseract availability, and the
pytesseract response function. -/
structure ContentDetector (Image : Type) where
  ocr_engine : String
  easyocr_reader : Option (Image → List EasyRaw)
  tesseract_available : Bool
  image_to_data : Image → List TessRow

/-- ContentDetector.detect_text_easyocr: convert each quadrilateral to an
axis-aligned [min x, min y, max x, max y] box.  The try/except returning []
on an engine error is absorbed into the reader response function. -/
def detect_text_easyocr {Image : Type} (d : ContentDetector Image) (image : Image) :
    List Detection :=
  match d.easyocr_reader with
  | none => []
  | some reader =>
    List.map (fun r =>
      { text := r.text,
        bbox :=
          { x1 := min (min (min r.p1.1 r.p2.1) r.p3.1) r.p4.1,
            y1 := min (min (min r.p1.2 r.p2.2) r.p3.2) r.p4.2,
            x2 := max (max (max r.p1.1 r.p2.1) r.p3.1) r.p4.1,
            y2 := max (max (max r.p1.2 r.p2.2) r.p3.2) r.p4.2 },
        confidence := r.confidence,
        engine := "easyocr" }) (reader image)

/-- ContentDetector.detect_text_tesseract: keep rows with non-empty stripped
text and positive confidence; box is [x, y, x+w, y+h]; confidence conf/100. -/
def detect_text_tesseract {Image : Type} (d : ContentDetector Image) (image : Image) :
    List Detection :=
  if !d.tesseract_available then []
  else
    List.foldl (fun acc row =>
      let text := strip row.text
      if text ≠ "" ∧ row.conf > 0 then
        acc ++ [{ text := text,
                  bbox := { x1 := row.left, y1 := row.top,
                            x2 := row.left + row.width, y2 := row.top + row.height },
                  confidence := (row.conf : ℚ) / 100,
                  engine := "tesseract" }]
      else acc) [] (d.image_to_data image)

/-- ContentDetector.detect_text: static dispatch on the configured engine;
"both" uses easyocr exactly when the reader object exists, else tesseract. -/
def detect_text {Image : Type} (d : ContentDetector Image) (image : Image) :
    List Detection :=
  if d.ocr_engine = "easyocr" ∨ (d.ocr_engine = "both" ∧ d.easyocr_reader.isSome) then
    detect_text_easyocr d image
  else if d.ocr_engine = "tesseract" ∨ d.ocr_engine = "both" then
    detect_text_tesseract d image
  else []

/-- ContentDetector.detect_text_in_region: crop, detect, then shift every
box by the crop origin (the code mutates det['bbox'][i] in place). -/
def detect_text_in_region {Image : Type} (P : PixelOps Image) (d : ContentDetector Image)
    (image : Image) (bbox : Int × Int × Int × Int) : List Detection :=
  let x1 := bbox.1
  let y1 := bbox.2.1
  let x2 := bbox.2.2.1
  let y2 := bbox.2.2.2
  let region := P.crop image (x1, y1, x2, y2)
  let detections := detect_text d region
  List.map (fun det =>
    { det with bbox := { x1 := det.bbox.x1 + x1, y1 := det.bbox.y1 + y1,
                         x2 := det.bbox.x2 + x1, y2 := det.bbox.y2 + y1 } }) detections

/-- The list.sort(key=bbox top) call in extract_visible_text: a stable sort
by vertical position, modelled by insertion sort (which is stable, hence the
same function as CPython stable sort for this total preorder). -/
def sortByY (l : List Detection) : List Detection :=
  List.insertionSort (fun a b : Detection => a.bbox.y1 ≤ b.bbox.y1) l

/-- The detections.sort(key=bbox left) calls in the tab extraction. -/
def sortByX (l : List Detection) : List Detection :=
  List.insertionSort (fun a b : Detection => a.bbox.x1 ≤ b.bbox.x1) l

/-- ContentDetector.extract_visible_text: filter by confidence, sort by
vertical position, join texts with single spaces. -/
def extract_visible_text {Image : Type} (d : ContentDetector Image) (image : Image)
    (confidence_threshold : ℚ) : String :=
  let detections := detect_text d image
  let filtered := List.filter (fun x => decide (confidence_threshold ≤ x.confidence)) detections
  let filtered := sortByY filtered
  String.intercalate " " (List.map (fun x => x.text) filtered)

/-- An accessibility (UIA) element as the tab search reads it: a lowered
control-type string, a name, and children.  Per-node failures in the source
are absorbed by the tree the collaborator hands back. -/
inductive UITree where
  | node (control_type : String) (name : String) (children : List UITree)
deriving Repr

/-- Acceptance test of UIInspector.get_browser_tabs method 1 for one node,
given the tabs collected so far. -/
def tabNodeCond (control_type name : String) (tabs : List String) : Bool :=
  strContains (lowerStr control_type) "tabitem" && name ≠ "" &&
    !(List.contains tabs name) && name.length > 3 &&
    !(startsWithStr name "Active View") && !(startsWithStr name "Tab content")

/-- The search_tabs closure of UIInspector.get_browser_tabs, written with
explicit fuel: the source guards `if depth > 10: return` and recurses with
depth + 1, so a call at depth d behaves like fuel = 11 - d; the root call at
depth 0 is fuel = 11. -/
def search_tabs_fuel : Nat → UITree → List String → List String
  | 0, _, tabs => tabs
  | fuel + 1, UITree.node control_type name children, tabs =>
    let tabs1 := if tabNodeCond control_type name tabs then tabs ++ [name] else tabs
    List.foldl (fun acc c => search_tabs_fuel fuel c acc) tabs1 children

/-- search_tabs(window) as called from get_browser_tabs (depth 0). -/
def search_tabs (t : UITree) (tabs : List String) : List String :=
  search_tabs_fuel 11 t tabs

/-- The window-descriptor dict built by UIInspector.get_window_info in its
successful branch. -/
structure WInfo where
  hwnd : Int
  title : String
  winClass : String
  bbox : BBox
  pid : Int
  process_name : String
  exe_path : String
  visible : Bool
  enabled : Bool
deriving DecidableEq, Repr

/-- UIInspector state: pywinauto availability, the UIA desktop (none when
init failed; the lookup returns none when desktop.window(handle=hwnd)
raises), the win32gui GetWindowRect responses (none models a raise), and the
get_window_info responses (.error models the except-branch error dict). -/
structure UIInspectorM (Image : Type) where
  pywinauto_available : Bool
  desktop : Option (Int → Option UITree)
  window_rect : Int → Option BBox
  window_info : Int → Except String WInfo

/-- The tab list collected by method 1 (the accessibility-tree search) of
UIInspector.get_browser_tabs, before the sentinel decision. -/
def collected_tabs {Image : Type} (insp : UIInspectorM Image) (hwnd : Int) : List String :=
  if insp.pywinauto_available then
    match insp.desktop with
    | some windowOf =>
      match windowOf hwnd with
      | some w => search_tabs w []
      | none => []
    | none => []
  else []

/-- UIInspector.get_browser_tabs: tree search first; if it collected nothing
and a screenshot was supplied, return the OCR sentinel (unless GetWindowRect
raises, in which case the except branch falls through to the collected
list).  The crop of the screenshot in method 2 is dead code in the source:
only the sentinel is returned. -/
def get_browser_tabs {Image : Type} (insp : UIInspectorM Image) (hwnd : Int)
    (screenshot : Option Image) : List String :=
  let tabs : List String :=
    if insp.pywinauto_available then
      match insp.desktop with
      | some windowOf =>
        match windowOf hwnd with
        | some w => search_tabs w []
        | none => []
      | none => []
    else []
  if tabs.length = 0 ∧ screenshot.isSome then
    match insp.window_rect hwnd with
    | some _ => ["__USE_OCR__"]
    | none => tabs
  else tabs

/-- The Stage B acceptance test of ScreenAnalyzer._extract_tabs_with_ocr for
one detection: non-empty stripped text of length strictly between 2 and 60,
more than 30px right of the last accepted x, not a stop word, and not a URL
prefix. -/
def stageBCond (text : String) (x_pos last_x : Int) : Bool :=
  text ≠ "" && 2 < text.length && text.length < 60 && x_pos - last_x > 30 &&
    !(List.contains ["×", "+", "...", "New Tab", "Google", "Chrome"] text) &&
    !(startsWithStr text "http") && !(startsWithStr text "www")

/-- One iteration of the Stage B loop: state is (tabs, last_x), last_x
starting at -100. -/
def tabStep (acc : List String × Int) (det : Detection) : List String × Int :=
  let text := strip det.text
  let x_pos := det.bbox.x1
  if stageBCond text x_pos acc.2 then (acc.1 ++ [text], x_pos) else acc

/-- The Stage B loop instrumented to also record the x position of each
accepted candidate (the source keeps only the text). -/
def tabStepX (acc : List (String × Int) × Int) (det : Detection) : List (String × Int) × Int :=
  let text := strip det.text
  let x_pos := det.bbox.x1
  if stageBCond text x_pos acc.2 then (acc.1 ++ [(text, x_pos)], x_pos) else acc

/-- One iteration of the Stage C loop: only the length filter, no spacing
or stop-word test. -/
def stageCStep (tabs : List String) (det : Detection) : List String :=
  let text := strip det.text
  if text ≠ "" && 2 < text.length && text.length < 60 then tabs ++ [text] else tabs

/-- One window of ScreenCapture.get_all_windows output. -/
structure WindowEntry where
  hwnd : Int
  title : String
  bbox : BBox
  winClass : String
deriving DecidableEq, Repr

/-- One element emitted by UIInspector.get_ui_tree. -/
structure UIElement where
  name : String
  type : String
  bbox : BBox
  depth : Nat
  enabled : Bool
  visible : Bool
deriving DecidableEq, Repr

/-- The analysis dict of ScreenAnalyzer.analyze_window; absent keys are
none.  The window_info value is itself the get_window_info outcome (ok
descriptor or error dict). -/
structure AnalysisResult (Image : Type) where
  error : Option String := none
  available_windows : Option (List String) := none
  window_info : Option (Except String WInfo) := none
  timestamp : Option ℚ := none
  screenshot : Option Image := none
  screenshot_size : Option (Int × Int) := none
  screenshot_error : Option String := none
  text_detections : Option (List Detection) := none
  extracted_text : Option String := none
  ui_elements : Option (List UIElement) := none
  ui_element_count : Option Nat := none
  browser_tabs : Option (List String) := none

/-- ScreenAnalyzer state: its three collaborators (capture, detector,
inspector) with their per-call responses, plus the get_ui_tree responses
(that traversal is not itself under test). -/
structure ScreenAnalyzer (Image : Type) where
  P : PixelOps Image
  find_window : String → Option Int
  get_all_windows : List WindowEntry
  capture_window : Int → Option Image
  detector : ContentDetector Image
  inspector : UIInspectorM Image
  get_ui_tree_elems : Int → List UIElement

/-- ScreenAnalyzer._extract_tabs_with_ocr: crop the primary tab-bar strip
(50, 0, width-200, 40), OCR it, sort left-to-right, run the Stage B loop;
if that accepted nothing, crop the looser strip (80, 5, width-150, 35), OCR
it and run the permissive Stage C loop appending to the same list; truncate
to 15.  A get_window_info error dict makes rect['bbox'] raise, and the
enclosing try/except returns []. -/
def extract_tabs_with_ocr {Image : Type} (a : ScreenAnalyzer Image) (hwnd : Int)
    (screenshot : Image) : List String :=
  match a.inspector.window_info hwnd with
  | Except.error _ => []
  | Except.ok info =>
    let rect := info.bbox
    let width := rect.x2 - rect.x1
    let tab_region := a.P.crop screenshot (50, 0, width - 200, 40)
    let detections := sortByX (detect_text a.detector tab_region)
    let tabs := (List.foldl tabStep ([], -100) detections).1
    let tabs :=
      if tabs.length = 0 then
        let tab_region2 := a.P.crop screenshot (80, 5, width - 150, 35)
        let detections2 := sortByX (detect_text a.detector tab_region2)
        List.foldl stageCStep tabs detections2
      else tabs
    List.take 15 tabs

/-- Stage B of the fallback chain in isolation, as a function of the window
width: the tab list the primary-strip loop accepts. -/
def stageB_tabs {Image : Type} (P : PixelOps Image) (d : ContentDetector Image)
    (screenshot : Image) (width : Int) : List String :=
  let tab_region := P.crop screenshot (50, 0, width - 200, 40)
  let detections := sortByX (detect_text d tab_region)
  (List.foldl tabStep ([], -100) detections).1

/-- Stage B instrumented with the accepted x positions. -/
def stageB_accepted {Image : Type} (P : PixelOps Image) (d : ContentDetector Image)
    (screenshot : Image) (width : Int) : List (String × Int) :=
  let tab_region := P.crop screenshot (50, 0, width - 200, 40)
  let detections := sortByX (detect_text d tab_region)
  (List.foldl tabStepX ([], -100) detections).1

/-- Stage C of the fallback chain in isolation. -/
def stageC_tabs {Image : Type} (P : PixelOps Image) (d : ContentDetector Image)
    (screenshot : Image) (width : Int) : List String :=
  let tab_region := P.crop screenshot (80, 5, width - 150, 35)
  let detections := sortByX (detect_text d tab_region)
  List.foldl stageCStep [] detections

/-- ScreenAnalyzer.analyze_window.  t is the time.time() reading of this
call.  In the corner where the source would raise NameError (capture was not
requested and the tree search collected exactly the sentinel string, leaving
the local variable screenshot unbound on line 162), the model takes the
falsy branch; no verified claim depends on that corner. -/
def analyze_window {Image : Type} (a : ScreenAnalyzer Image) (t : ℚ) (ident : String)
    (capture_screenshot detect_text_flag get_ui_tree : Bool) : AnalysisResult Image :=
  match a.find_window ident with
  | none =>
    { error := some ("Window \x27" ++ ident ++ "\x27 not found"),
      available_windows := some (List.map (fun w => w.title) a.get_all_windows) }
  | some hwnd =>
    let r0 : AnalysisResult Image :=
      { window_info := some (a.inspector.window_info hwnd), timestamp := some t }
    let r1 :=
      if capture_screenshot then
        match a.capture_window hwnd with
        | some screenshot =>
          let r := { r0 with screenshot := some screenshot,
                             screenshot_size := some (a.P.size screenshot) }
          if detect_text_flag then
            let text_detections := detect_text a.detector screenshot
            { r with text_detections := some text_detections,
                     extracted_text :=
                       some (String.intercalate " "
                         (List.map (fun d => d.text) text_detections)) }
          else r
        | none => { r0 with screenshot_error := some "Failed to capture window" }
      else r0
    let r2 :=
      if get_ui_tree then
        let ui := a.get_ui_tree_elems hwnd
        { r1 with ui_elements := some ui, ui_element_count := some ui.length }
      else r1
    let shot : Option Image := if capture_screenshot then a.capture_window hwnd else none
    let tabs := get_browser_tabs a.inspector hwnd shot
    let tabs :=
      if tabs = ["__USE_OCR__"] ∧ shot.isSome then
        match shot with
        | some s => extract_tabs_with_ocr a hwnd s
        | none => tabs
      else tabs
    if tabs ≠ [] then { r2 with browser_tabs := some tabs } else r2

/-- The summary dict built by ScreenAnalyzer.get_window_summary. -/
structure WindowSummary where
  window_name : String
  application : String
  visible_text : String
  browser_tabs : List String
  is_active : Bool
  position : BBox
deriving DecidableEq, Repr

/-- Outcome of get_window_summary: the error analysis dict passed through,
a summary, or the uncaught KeyError the source raises when window_info is
the inspector error dict (result['window_info']['title'] on a dict holding
only an error key). -/
inductive SummaryResult (Image : Type) where
  | errorResult (r : AnalysisResult Image)
  | summary (s : WindowSummary)
  | keyError

/-- ScreenAnalyzer.get_window_summary: analyze with screenshot and text on,
UI tree off; pass an error result through; otherwise flatten to the summary
dict. -/
def get_window_summary {Image : Type} (a : ScreenAnalyzer Image) (t : ℚ) (ident : String) :
    SummaryResult Image :=
  let result := analyze_window a t ident true true false
  if result.error.isSome then SummaryResult.errorResult result
  else
    match result.window_info with
    | some (Except.ok wi) =>
      SummaryResult.summary
        { window_name := wi.title,
          application := wi.process_name,
          visible_text := (result.extracted_text).getD "",
          browser_tabs := (result.browser_tabs).getD [],
          is_active := wi.enabled,
          position := wi.bbox }
    | _ => SummaryResult.keyError

/-- Concrete pixel operations on label images (Image := Nat), for witnesses. -/
def cropNat : PixelOps Nat := { crop := fun i _ => i + 1, size := fun _ => (800, 600) }

/-- A detector configured "both" whose easyocr reader failed to initialize
and whose tesseract sees one word. -/
def tessDetector : ContentDetector Nat :=
  { ocr_engine := "both",
    easyocr_reader := none,
    tesseract_available := true,
    image_to_data := fun _ =>
      [{ text := "Hello", conf := 90, left := 1, top := 2, width := 3, height := 4 }] }

/-- A detector that sees nothing (easyocr configured, reader missing). -/
def blindDetector : ContentDetector Nat :=
  { ocr_engine := "easyocr", easyocr_reader := none,
    tesseract_available := false, image_to_data := fun _ => [] }

/-- A window descriptor for witnesses. -/
def winfo1 : WInfo :=
  { hwnd := 1, title := "Untitled - Notepad", winClass := "Notepad",
    bbox := { x1 := 0, y1 := 0, x2 := 800, y2 := 600 }, pid := 7,
    process_name := "notepad.exe", exe_path := "C:/Windows/notepad.exe",
    visible := true, enabled := true }

/-- An inspector whose accessibility tree is searchable but holds no tab
items (a bare pane), with a readable window rectangle. -/
def inspPane : UIInspectorM Nat :=
  { pywinauto_available := true,
    desktop := some (fun _ => some (UITree.node "pane" "root" [])),
    window_rect := fun _ => some { x1 := 0, y1 := 0, x2 := 800, y2 := 600 },
    window_info := fun _ => Except.ok winfo1 }

/-- A concrete analyzer for witnesses: one cataloged window, capture fails. -/
def analyzer1 : ScreenAnalyzer Nat :=
  { P := cropNat,
    find_window := fun s => if s = "Untitled - Notepad" then some 1 else none,
    get_all_windows := [{ hwnd := 1, title := "Untitled - Notepad",
                          bbox := { x1 := 0, y1 := 0, x2 := 800, y2 := 600 },
                          winClass := "Notepad" }],
    capture_window := fun _ => none,
    detector := blindDetector,
    inspector := inspPane,
    get_ui_tree_elems := fun _ => [] }

/-- Claim C1: every detection of detect_text_in_region carries exactly the
bounding box of the corresponding detection on the cropped sub-image shifted
by the crop origin (x coordinates by box x1, y coordinates by box y1), the
shift being applied exactly once. -/
theorem detect_text_in_region_remaps_once {Image : Type} (P : PixelOps Image)
    (d : ContentDetector Image) (image : Image) (x1 y1 x2 y2 : Int) :
    List.map (fun det => det.bbox) (detect_text_in_region P d image (x1, y1, x2, y2)) =
      List.map (fun det =>
          BBox.mk (det.bbox.x1 + x1) (det.bbox.y1 + y1) (det.bbox.x2 + x1) (det.bbox.y2 + y1))
        (detect_text d (P.crop image (x1, y1, x2, y2))) := by
  simp only [detect_text_in_region, List.map_map]
  rfl

/-- Claim C10: detect_text_in_region changes only the bounding boxes: the
text, confidence and engine of every detection, and the number and relative
order of detections, are those of detect_text on the crop. -/
theorem detect_text_in_region_frame {Image : Type} (P : PixelOps Image)
    (d : ContentDetector Image) (image : Image) (x1 y1 x2 y2 : Int) :
    (detect_text_in_region P d image (x1, y1, x2, y2)).length =
        (detect_text d (P.crop image (x1, y1, x2, y2))).length ∧
      List.map (fun det => det.text) (detect_text_in_region P d image (x1, y1, x2, y2)) =
        List.map (fun det => det.text) (detect_text d (P.crop image (x1, y1, x2, y2))) ∧
      List.map (fun det => det.confidence) (detect_text_in_region P d image (x1, y1, x2, y2)) =
        List.map (fun det => det.confidence) (detect_text d (P.crop image (x1, y1, x2, y2))) ∧
      List.map (fun det => det.engine) (detect_text_in_region P d image (x1, y1, x2, y2)) =
        List.map (fun det => det.engine) (detect_text d (P.crop image (x1, y1, x2, y2))) := by
  refine ⟨?_, ?_, ?_, ?_⟩ <;>
    simp only [detect_text_in_region, List.map_map, List.length_map] <;> rfl

/-- Claim C3: with the detector configured "both", a present primary engine
(easyocr) is authoritative: detect_text returns its result, non-empty or
not; and when the primary engine is missing it detects nothing and the
secondary engine (tesseract) result is returned, filling the gap. -/
theorem detect_text_both_primary_authoritative {Image : Type} (d : ContentDetector Image)
    (image : Image) (hboth : d.ocr_engine = "both") :
    (d.easyocr_reader.isSome → detect_text d image = detect_text_easyocr d image) ∧
      (d.easyocr_reader = none →
        detect_text_easyocr d image = [] ∧
          detect_text d image = detect_text_tesseract d image) := by
  constructor
  · intro h
    unfold detect_text
    rw [if_pos (Or.inr ⟨hboth, h⟩)]
  · intro h
    refine ⟨by unfold detect_text_easyocr; rw [h], ?_⟩
    unfold detect_text
    rw [if_neg (by simp [hboth, h]), if_pos (Or.inr hboth)]

/-- Witness for C3 at a concrete detector: the reader is absent, the primary
result is empty, and the secondary result is returned. -/
theorem detect_text_both_gap_witness :
    detect_text_easyocr tessDetector 0 = [] ∧
      detect_text tessDetector 0 = detect_text_tesseract tessDetector 0 :=
  (detect_text_both_primary_authoritative tessDetector 0 rfl).2 rfl

/-- Claim C6: extract_visible_text is the space-join of exactly the
detections whose confidence is at least the threshold, arranged so that
consecutive detections have non-decreasing bounding-box top coordinates. -/
theorem extract_visible_text_sorted_join {Image : Type} (d : ContentDetector Image)
    (image : Image) (thr : ℚ) :
    ∃ l : List Detection,
      List.Perm l (List.filter (fun x => decide (thr ≤ x.confidence)) (detect_text d image)) ∧
        List.Chain' (fun a b => a.bbox.y1 ≤ b.bbox.y1) l ∧
        extract_visible_text d image thr =
          String.intercalate " " (List.map (fun x => x.text) l) := by
  refine ⟨sortByY (List.filter (fun x => decide (thr ≤ x.confidence)) (detect_text d image)),
    List.perm_insertionSort _ _, ?_, rfl⟩
  haveI htot : IsTotal Detection (fun a b => a.bbox.y1 ≤ b.bbox.y1) :=
    ⟨fun a b => Int.le_total a.bbox.y1 b.bbox.y1⟩
  haveI htr : IsTrans Detection (fun a b => a.bbox.y1 ≤ b.bbox.y1) :=
    ⟨fun _ _ _ hab hbc => le_trans hab hbc⟩
  exact (List.sorted_insertionSort _ _).chain'

/-- The spacing fact packed inside a successful Stage B acceptance test. -/
theorem stageBCond_spacing {text : String} {x_pos last_x : Int}
    (h : stageBCond text x_pos last_x = true) : 30 < x_pos - last_x := by
  simp only [stageBCond, Bool.and_eq_true, decide_eq_true_eq] at h
  omega

/-- Fold invariant for the instrumented Stage B loop: the accepted list
stays pairwise separated by more than 30px and all accepted x positions are
bounded by the running last_x. -/
theorem tabStepX_fold_invariant (dets : List Detection) :
    ∀ acc : List (String × Int) × Int,
      List.Pairwise (fun p q : String × Int => p.2 + 30 < q.2) acc.1 →
      (∀ p ∈ acc.1, p.2 ≤ acc.2) →
      List.Pairwise (fun p q : String × Int => p.2 + 30 < q.2)
          (List.foldl tabStepX acc dets).1 ∧
        ∀ p ∈ (List.foldl tabStepX acc dets).1, p.2 ≤ (List.foldl tabStepX acc dets).2 := by
  induction dets with
  | nil => exact fun acc h1 h2 => ⟨h1, h2⟩
  | cons det rest ih =>
    intro acc h1 h2
    simp only [List.foldl_cons]
    by_cases hc : stageBCond (strip det.text) det.bbox.x1 acc.2 = true
    · have hstep : tabStepX acc det = (acc.1 ++ [(strip det.text, det.bbox.x1)], det.bbox.x1) := by
        simp [tabStepX, hc]
      rw [hstep]
      have hsp := stageBCond_spacing hc
      apply ih
      · rw [List.pairwise_append]
        refine ⟨h1, List.pairwise_singleton _ _, ?_⟩
        intro p hp q hq
        simp only [List.mem_singleton] at hq
        subst hq
        have := h2 p hp
        simp only
        omega
      · intro p hp
        rcases List.mem_append.mp hp with hl | hr
        · have := h2 p hl
          simp only
          omega
        · simp only [List.mem_singleton] at hr
          subst hr
          simp
    · have hstep : tabStepX acc det = acc := by
        simp [tabStepX, hc]
      rw [hstep]
      exact ih acc h1 h2

/-- The instrumented Stage B loop projects onto the loop of the source: the
first components of the accepted pairs are exactly the accepted tab texts,
and the running last_x values agree. -/
theorem tabStepX_fold_fst (dets : List Detection) :
    ∀ (lx : List (String × Int)) (ls : List String) (last : Int),
      List.map Prod.fst lx = ls →
      List.map Prod.fst (List.foldl tabStepX (lx, last) dets).1 =
          (List.foldl tabStep (ls, last) dets).1 ∧
        (List.foldl tabStepX (lx, last) dets).2 = (List.foldl tabStep (ls, last) dets).2 := by
  induction dets with
  | nil => exact fun lx ls last h => ⟨h, rfl⟩
  | cons det rest ih =>
    intro lx ls last h
    simp only [List.foldl_cons]
    by_cases hc : stageBCond (strip det.text) det.bbox.x1 last = true
    · have h1 : tabStepX (lx, last) det = (lx ++ [(strip det.text, det.bbox.x1)], det.bbox.x1) := by
        simp [tabStepX, hc]
      have h2 : tabStep (ls, last) det = (ls ++ [strip det.text], det.bbox.x1) := by
        simp [tabStep, hc]
      rw [h1, h2]
      exact ih _ _ _ (by simp [h])
    · have h1 : tabStepX (lx, last) det = (lx, last) := by simp [tabStepX, hc]
      have h2 : tabStep (ls, last) det = (ls, last) := by simp [tabStep, hc]
      rw [h1, h2]
      exact ih _ _ _ h

/-- Claim C5: any two candidates accepted by Stage B have x positions more
than 30px apart (in acceptance order the x positions are strictly increasing
with gaps above 30), and the accepted texts are exactly the Stage B tab
list of the source loop. -/
theorem stageB_spacing_invariant {Image : Type} (P : PixelOps Image)
    (d : ContentDetector Image) (screenshot : Image) (width : Int) :
    List.Pairwise (fun p q : String × Int => p.2 + 30 < q.2)
        (stageB_accepted P d screenshot width) ∧
      List.map Prod.fst (stageB_accepted P d screenshot width) =
        stageB_tabs P d screenshot width := by
  constructor
  · exact (tabStepX_fold_invariant _ ([], -100) (List.Pairwise.nil) (by simp)).1
  · exact (tabStepX_fold_fst _ [] [] (-100) rfl).1

/-- extract_tabs_with_ocr is the two-stage chain: when the window descriptor
is readable, it returns Stage B capped at 15 if Stage B accepted anything,
else Stage C capped at 15. -/
theorem extract_tabs_eq_stages {Image : Type} (a : ScreenAnalyzer Image) (hwnd : Int)
    (screenshot : Image) (info : WInfo)
    (hinfo : a.inspector.window_info hwnd = Except.ok info) :
    extract_tabs_with_ocr a hwnd screenshot =
      if stageB_tabs a.P a.detector screenshot (info.bbox.x2 - info.bbox.x1) = [] then
        List.take 15 (stageC_tabs a.P a.detector screenshot (info.bbox.x2 - info.bbox.x1))
      else
        List.take 15 (stageB_tabs a.P a.detector screenshot (info.bbox.x2 - info.bbox.x1)) := by
  unfold extract_tabs_with_ocr stageB_tabs stageC_tabs
  rw [hinfo]
  simp only [List.length_eq_zero]
  split <;> simp_all

/-- Claim C4: with the window descriptor readable, Stage C runs exactly when
Stage B accepted zero tabs.  When Stage B accepted something the result is
Stage B capped at 15 and is unchanged under any replacement detector that
agrees on the Stage B crop (Stage C crop and OCR never influence the
output); when Stage B accepted nothing the result is Stage C capped at 15. -/
theorem extract_tabs_stageC_iff_stageB_empty {Image : Type} (a : ScreenAnalyzer Image)
    (hwnd : Int) (screenshot : Image) (info : WInfo)
    (hinfo : a.inspector.window_info hwnd = Except.ok info) :
    (stageB_tabs a.P a.detector screenshot (info.bbox.x2 - info.bbox.x1) ≠ [] →
      extract_tabs_with_ocr a hwnd screenshot =
          List.take 15 (stageB_tabs a.P a.detector screenshot (info.bbox.x2 - info.bbox.x1)) ∧
        ∀ d2 : ContentDetector Image,
          detect_text d2
              (a.P.crop screenshot (50, 0, info.bbox.x2 - info.bbox.x1 - 200, 40)) =
            detect_text a.detector
              (a.P.crop screenshot (50, 0, info.bbox.x2 - info.bbox.x1 - 200, 40)) →
          extract_tabs_with_ocr { a with detector := d2 } hwnd screenshot =
            List.take 15 (stageB_tabs a.P a.detector screenshot
              (info.bbox.x2 - info.bbox.x1))) ∧
      (stageB_tabs a.P a.detector screenshot (info.bbox.x2 - info.bbox.x1) = [] →
        extract_tabs_with_ocr a hwnd screenshot =
          List.take 15 (stageC_tabs a.P a.detector screenshot
            (info.bbox.x2 - info.bbox.x1))) := by
  constructor
  · intro hne
    constructor
    · rw [extract_tabs_eq_stages a hwnd screenshot info hinfo, if_neg hne]
    · intro d2 hd2
      have hB2 : stageB_tabs a.P d2 screenshot (info.bbox.x2 - info.bbox.x1) =
          stageB_tabs a.P a.detector screenshot (info.bbox.x2 - info.bbox.x1) := by
        unfold stageB_tabs
        simp only [hd2]
      rw [extract_tabs_eq_stages { a with detector := d2 } hwnd screenshot info hinfo]
      simp only
      rw [hB2, if_neg hne]
  · intro he
    rw [extract_tabs_eq_stages a hwnd screenshot info hinfo, if_pos he]

/-- Witness for C4 at a concrete analyzer whose detector sees nothing: Stage
B accepts zero tabs and the result is the (empty) Stage C list capped at
15. -/
theorem extract_tabs_stageC_witness :
    extract_tabs_with_ocr analyzer1 1 7 =
      List.take 15 (stageC_tabs analyzer1.P analyzer1.detector 7
        (winfo1.bbox.x2 - winfo1.bbox.x1)) :=
  (extract_tabs_stageC_iff_stageB_empty analyzer1 1 7 winfo1 rfl).2 rfl

/-- Counterexample to claim C2: with pywinauto available, a live desktop and
a searchable window tree (a bare pane with no tab items), the tree IS
searched and yields zero tabs, yet get_browser_tabs with a screenshot
returns the OCR sentinel, not the empty list the claim requires. -/
theorem get_browser_tabs_sentinel_on_searched_empty_tree :
    inspPane.pywinauto_available = true ∧
      inspPane.desktop.isSome = true ∧
      search_tabs (UITree.node "pane" "root" []) [] = [] ∧
      get_browser_tabs inspPane 1 (some (0 : Nat)) = ["__USE_OCR__"] ∧
      get_browser_tabs inspPane 1 (some (0 : Nat)) ≠ [] := by
  refine ⟨rfl, rfl, rfl, rfl, ?_⟩
  decide

/-- Amended claim C2: get_browser_tabs returns the sentinel exactly when the
tree search collected nothing (whether because the tree could not be
searched or because the search found no tabs), a screenshot is supplied, and
the window rectangle is readable; in every other case the collected list
(possibly empty) is returned. -/
theorem get_browser_tabs_sentinel_characterization {Image : Type}
    (insp : UIInspectorM Image) (hwnd : Int) (screenshot : Option Image) :
    get_browser_tabs insp hwnd screenshot =
      if collected_tabs insp hwnd = [] ∧ screenshot.isSome ∧
          (insp.window_rect hwnd).isSome then ["__USE_OCR__"]
      else collected_tabs insp hwnd := by
  unfold get_browser_tabs collected_tabs
  simp only [List.length_eq_zero]
  cases hr : insp.window_rect hwnd <;> split <;> simp_all

/-- Claim C7: when the identifier matches no window, analyze_window returns
exactly the error dict carrying the titles of all cataloged windows; the
result is moreover independent of the capture, detection, inspection and
UI-tree collaborators (they are never consulted). -/
theorem analyze_window_not_found_error {Image : Type} (a : ScreenAnalyzer Image) (t : ℚ)
    (ident : String) (cs dt gut : Bool) (h : a.find_window ident = none) :
    analyze_window a t ident cs dt gut =
        { error := some ("Window \x27" ++ ident ++ "\x27 not found"),
          available_windows := some (List.map (fun w => w.title) a.get_all_windows) } ∧
      ∀ a2 : ScreenAnalyzer Image, a2.find_window ident = none →
        a2.get_all_windows = a.get_all_windows →
        analyze_window a2 t ident cs dt gut = analyze_window a t ident cs dt gut := by
  constructor
  · unfold analyze_window
    rw [h]
  · intro a2 h2 hw
    unfold analyze_window
    rw [h, h2, hw]

/-- Witness for C7 at a concrete analyzer cataloging one Notepad window. -/
theorem analyze_window_not_found_witness :
    analyze_window analyzer1 0 "Zzzznonexistent" true true false =
      { error := some ("Window \x27" ++ "Zzzznonexistent" ++ "\x27 not found"),
        available_windows := some (List.map (fun w => w.title) analyzer1.get_all_windows) } :=
  (analyze_window_not_found_error analyzer1 0 "Zzzznonexistent" true true false rfl).1

/-- Claim C8: when the window resolves but the pixel source returns no
image, analyze_window still returns a result dict whose screenshot_error
field is populated and whose screenshot, text_detections and extracted_text
fields are absent, with no top-level error (and, the model being total, no
exception). -/
theorem analyze_window_capture_failure {Image : Type} (a : ScreenAnalyzer Image) (t : ℚ)
    (ident : String) (hwnd : Int) (dt gut : Bool)
    (hf : a.find_window ident = some hwnd) (hc : a.capture_window hwnd = none) :
    (analyze_window a t ident true dt gut).screenshot_error =
        some "Failed to capture window" ∧
      (analyze_window a t ident true dt gut).text_detections = none ∧
      (analyze_window a t ident true dt gut).extracted_text = none ∧
      (analyze_window a t ident true dt gut).screenshot = none ∧
      (analyze_window a t ident true dt gut).error = none := by
  unfold analyze_window
  rw [hf]
  simp only [hc, if_true, Option.isSome_none, and_false, if_false, ite_self]
  by_cases hg : gut = true <;>
    by_cases ht : get_browser_tabs a.inspector hwnd
        (if true = true then none else none) ≠ [] <;>
    simp_all

/-- Witness for C8 at a concrete analyzer whose capture always fails. -/
theorem analyze_window_capture_failure_witness :
    (analyze_window analyzer1 0 "Untitled - Notepad" true true false).screenshot_error =
        some "Failed to capture window" ∧
      (analyze_window analyzer1 0 "Untitled - Notepad" true true false).text_detections = none ∧
      (analyze_window analyzer1 0 "Untitled - Notepad" true true false).extracted_text = none ∧
      (analyze_window analyzer1 0 "Untitled - Notepad" true true false).screenshot = none ∧
      (analyze_window analyzer1 0 "Untitled - Notepad" true true false).error = none :=
  analyze_window_capture_failure analyzer1 0 "Untitled - Notepad" 1 true false rfl rfl

/-- Claim C9: with all collaborator responses fixed, two get_window_summary
calls that differ only in their clock reading produce identical output (the
timestamp is the only call-dependent input and it never reaches the
summary). -/
theorem get_window_summary_time_invariant {Image : Type} (a : ScreenAnalyzer Image)
    (ident : String) (t1 t2 : ℚ) :
    get_window_summary a t1 ident = get_window_summary a t2 ident := by
  unfold get_window_summary analyze_window
  cases hf : a.find_window ident with
  | none => rfl
  | some hwnd =>
    cases hcap : a.capture_window hwnd with
    | none =>
      simp only [if_true, Option.isSome_none, and_false, if_false, ite_self]
      by_cases ht : get_browser_tabs a.inspector hwnd
          (if true = true then none else none) ≠ [] <;>
        simp_all
    | some s =>
      simp only [if_true, Option.isSome_some, and_true]
      by_cases hu : get_browser_tabs a.inspector hwnd
          (if true = true then a.capture_window hwnd else none) = ["__USE_OCR__"] <;>
        simp_all <;>
        split <;>
        simp_all
